import Mathlib

/-!
Shallow embedding of `src/batch_portraits_v2.py` (the "Batch Runner"):
a sequential loop that, for each CSV row with a non-blank `name`, builds a
prompt, issues one image-generation (or style-guided edit) request against an
external provider, base64-decodes the returned payload and writes it to a
per-subject file, with per-subject error isolation and an unconditional
pacing sleep after every subject.

Bytes are modelled as `Nat` values (< 256 where it matters); the filesystem
as an association list from path strings to file contents; the external
provider (the OpenAI client) as an oracle mapping each request to an answer.
-/

namespace BatchPortraits

/-- Python `str` truthiness-relevant whitespace for `str.strip()` (ASCII
whitespace: space, tab, newline, carriage return, vertical tab, form feed). -/
def pyIsSpace (c : Char) : Bool :=
  c == ' ' || c == '\t' || c == '\n' || c == '\r' || c == '\x0b' || c == '\x0c'

/-- Translation of Python `s.strip()`: drop leading and trailing whitespace. -/
def pyStrip (s : String) : String :=
  ⟨((s.data.dropWhile pyIsSpace).reverse.dropWhile pyIsSpace).reverse⟩

/-- Translation of Python `s.replace(' ', '_')` (line 79): every space
character becomes an underscore. -/
def pyReplaceSpace (s : String) : String :=
  ⟨s.data.map (fun c => if c == ' ' then '_' else c)⟩

/-- Translation of Python `s.lower()` (line 50 choices are ASCII, where
`Char.toLower` agrees with Python). -/
def pyLower (s : String) : String :=
  ⟨s.data.map Char.toLower⟩

/-- First half of the f-string template of `make_prompt`
(lines 27-32 of the source), up to the `{person_name}` hole. -/
def promptPrefix : String :=
  "\nCreate a clean, blue-ink portrait in the exact style of the provided reference image:\n- single-color ink drawing and bold contour lines\n- clean white background\n- Slightly Imperfect, Human\nSubject: "

/-- Second half of the f-string template of `make_prompt`
(lines 32-39 of the source), after the `{person_name}` hole. -/
def promptSuffix : String :=
  ".\nClothes: Usual Clothing associated with this person.  Do NOT copy the clothes from the Referance Photo. \nExpression: Usual expression associated with this persons charater. keep the face CLEAN from marks.\nBonus points (Extra Money): if the person is an Actor for tv series or film.  then draw them from there most popular show / film.\nFraming: FACE ONLY! NO SHOULDERS, Tight crop on the face, centered. 1:1 square composition with generous WHITE SPACE ABOVE THE HEAD.\nImportant: Use the first input image only as a STYLE REFERENCE. Do NOT copy that person's identity or their features or clothes.\nminimal shading on face.  \n"

/-- Translation of `make_prompt` (lines 25-39): the fixed f-string template
with the subject name spliced in at its single hole. -/
def make_prompt (person_name : String) : String :=
  promptPrefix ++ person_name ++ promptSuffix

/-! ## Base64 (model of Python `base64.b64decode` / `b64encode`)

The provider returns a base64 text payload (`result.data[0].b64_json`); the
script writes `base64.b64decode(b64)` to the output file (line 112).  We model
standard base64 over byte lists: 3 bytes become 4 sextets, the alphabet maps
sextets to characters, `=` pads the tail.  `b64decodeChecked` returns `none`
on inputs that make `base64.b64decode` raise `binascii.Error` (scrubbed
length not a multiple of 4). -/

/-- The standard base64 alphabet, as indexed by Python `base64`. -/
def b64Alphabet : List Char :=
  "ABCDEFGHIJKLMNOPQRSTUVWXYZabcdefghijklmnopqrstuvwxyz0123456789+/".data

/-- Character for a sextet value (0..63). -/
def sextetToChar (n : Nat) : Char := b64Alphabet.getD n '='

/-- Sextet value of an alphabet character (inverse table lookup). -/
def charToSextet (c : Char) : Nat := b64Alphabet.indexOf c

/-- Bytes to sextets: each 3-byte group yields 4 sextets; a 1- or 2-byte
tail yields 2 or 3 sextets (the bits, zero-padded to sextet boundaries). -/
def bytesToSextets : List Nat → List Nat
  | [] => []
  | [a] => [a / 4, a % 4 * 16]
  | [a, b] => [a / 4, a % 4 * 16 + b / 16, b % 16 * 4]
  | a :: b :: c :: rest =>
      a / 4 :: (a % 4 * 16 + b / 16) :: (b % 16 * 4 + c / 64) :: c % 64 ::
        bytesToSextets rest

/-- Sextets back to bytes: each 4-sextet group yields 3 bytes; a 2- or
3-sextet tail yields 1 or 2 bytes. -/
def sextetsToBytes : List Nat → List Nat
  | s1 :: s2 :: s3 :: s4 :: rest =>
      (s1 * 4 + s2 / 16) :: (s2 % 16 * 16 + s3 / 4) :: (s3 % 4 * 64 + s4) ::
        sextetsToBytes rest
  | [s1, s2, s3] => [s1 * 4 + s2 / 16, s2 % 16 * 16 + s3 / 4]
  | [s1, s2] => [s1 * 4 + s2 / 16]
  | _ => []

/-- Model of Python `base64.b64encode`: alphabet characters for the sextets,
then `=` padding up to a multiple of 4 characters. -/
def b64encode (bs : List Nat) : List Char :=
  (bytesToSextets bs).map sextetToChar ++ List.replicate ((3 - bs.length % 3) % 3) '='

/-- Characters `b64decode` keeps: the alphabet plus the padding character
(anything else is discarded, as CPython does with `validate=False`). -/
def b64Scrub (cs : List Char) : List Char :=
  cs.filter (fun c => b64Alphabet.contains c || c == '=')

/-- Acceptance test of `base64.b64decode`: after discarding foreign
characters, the length must be a multiple of 4, else `binascii.Error`. -/
def b64Valid (cs : List Char) : Bool :=
  (b64Scrub cs).length % 4 == 0

/-- Decode base64 text to bytes, assuming well-formed input: drop padding,
map characters to sextets, regroup the bits into bytes. -/
def b64decodeRaw (cs : List Char) : List Nat :=
  sextetsToBytes (((b64Scrub cs).filter (fun c => !(c == '='))).map charToSextet)

/-- Model of Python `base64.b64decode`: `none` exactly when CPython raises
`binascii.Error` on the (scrubbed) input. -/
def b64decodeChecked (cs : List Char) : Option (List Nat) :=
  if b64Valid cs then some (b64decodeRaw cs) else none

/-! ## Data model of the Batch Runner (`main`, lines 43-119)

`Cfg` holds the parsed CLI configuration plus the style-reference bytes
loaded at startup (lines 44-58, 67-74); `Row` is one CSV record's `name`
value; the provider client is an oracle from requests to answers; the
filesystem is an association list keyed by path (most recent write first). -/

/-- One CSV record: its `name` column value (the only column the script
reads). -/
structure Row where
  name : String
deriving DecidableEq

/-- Translation of line 65, `rows = [r for r in reader if r.get("name", "").strip()]`:
keep exactly the rows whose name is non-empty after stripping (Python
string truthiness). -/
def loadRows (input : List Row) : List Row :=
  input.filter (fun r => !(pyStrip r.name == ""))

/-- Run configuration: parsed CLI arguments (lines 44-52) plus the style
bytes read once at startup when `--style` is given (lines 68-71;
`none` when absent, `some` the file contents when present). -/
structure Cfg where
  out : String
  size : Nat
  sleepSecs : Rat
  fmt : String
  quality : String
  styleBytes : Option (List Nat)
deriving DecidableEq

/-- Translation of line 58, `size_str = f"{args.size}x{args.size}"`. -/
def sizeStr (cfg : Cfg) : String := toString cfg.size ++ "x" ++ toString cfg.size

/-- Sanitized per-subject file name (line 79):
`f"{person_name.replace(' ', '_')}.{args.format.lower()}"`. -/
def outFileName (fmt person_name : String) : String :=
  pyReplaceSpace person_name ++ "." ++ (pyLower fmt)

/-- Per-subject output path (line 79): the output directory joined with the
sanitized file name. -/
def outPathFor (cfg : Cfg) (person_name : String) : String :=
  cfg.out ++ "/" ++ outFileName cfg.fmt person_name

/-- A request issued to the provider: `client.images.edit` (lines 86-92)
or `client.images.generate` (lines 95-108); the `quality` field of a
generate request is `none` when the keyword is omitted (fallback call). -/
inductive Request where
  | edit (image : List Nat) (prompt : String) (size : String) (output_format : String)
  | generate (prompt : String) (size : String) (quality : Option String)
      (output_format : String)
deriving DecidableEq

/-- One element of the provider response's `data` list; `b64_json` is the
text-safe payload, absent when the provider returned none. -/
structure Item where
  b64_json : Option (List Char)
deriving DecidableEq

/-- A provider response object (`result`), carrying its `data` list. -/
structure Resp where
  data : List Item
deriving DecidableEq

/-- What the provider client does with one request: return a response,
raise `TypeError` (the SDK rejecting an unsupported keyword such as
`quality`), or raise any other exception. -/
inductive ProviderAnswer where
  | ok (resp : Resp)
  | typeErr
  | fail
deriving DecidableEq

/-- The ambient environment: the provider client as an oracle, and whether
opening a given path for writing succeeds. -/
structure Env where
  provider : Request → ProviderAnswer
  openOk : String → Bool

/-- The filesystem: paths to file contents, most recent write first. -/
abbrev FS := List (String × List Nat)

/-- Write (create or overwrite) the file at `p`. -/
def fsSet (fs : FS) (p : String) (v : List Nat) : FS := (p, v) :: fs

/-- Contents of the file at `p`, `none` when no such file. -/
def fsGet (fs : FS) (p : String) : Option (List Nat) :=
  (fs.find? (fun e => e.1 == p)).map Prod.snd

/-- Observable events of one run, in order: the per-subject progress line
(line 80), each issued request, the output file being opened for truncating
write and then written (lines 111-112), the per-subject error line
(line 115), and the pacing sleep (line 117). -/
inductive Ev where
  | progress (person : String) (outFile : String)
  | req (r : Request)
  | fileOpen (path : String)
  | fileWrite (path : String) (bytes : List Nat)
  | errorLog (person : String)
  | sleep (seconds : Rat)
deriving DecidableEq

/-- Shape and payload helpers over requests. -/
def isEditShape : Request → Bool
  | .edit .. => true
  | .generate .. => false

/-- Whether a request carries a `quality` parameter (only a generate call
with the keyword present does; edit calls never take one, lines 86-92). -/
def carriesQuality : Request → Bool
  | .generate _ _ (some _) _ => true
  | _ => false

/-- The reference-image bytes carried by a request, if any. -/
def refBytesOf : Request → Option (List Nat)
  | .edit image .. => some image
  | .generate .. => none

/-- The generate-mode call with capability fallback (lines 94-108): attempt
with the `quality` keyword; on `TypeError` reissue once with the same
prompt, size and output format but without `quality`; any other exception
propagates.  Returns the requests issued and the response, if any. -/
def generateCall (cfg : Cfg) (env : Env) (prompt : String) :
    List Request × Option Resp :=
  let r1 := Request.generate prompt (sizeStr cfg) (some cfg.quality) (pyLower cfg.fmt)
  match env.provider r1 with
  | .ok resp => ([r1], some resp)
  | .typeErr =>
      let r2 := Request.generate prompt (sizeStr cfg) none (pyLower cfg.fmt)
      match env.provider r2 with
      | .ok resp => ([r1, r2], some resp)
      | _ => ([r1, r2], none)
  | .fail => ([r1], none)

/-- Mode selection (lines 83-108): `if style_bytes:` is Python truthiness,
so the edit branch is taken exactly when the loaded bytes are non-empty;
`none` (no `--style`) and `some []` (an empty style file) both fall through
to the generate branch. -/
def callProvider (cfg : Cfg) (env : Env) (prompt : String) :
    List Request × Option Resp :=
  match cfg.styleBytes with
  | some (b :: bs) =>
      let r := Request.edit (b :: bs) prompt (sizeStr cfg) (pyLower cfg.fmt)
      match env.provider r with
      | .ok resp => ([r], some resp)
      | _ => ([r], none)
  | _ => generateCall cfg env prompt

/-- Model of `base64.b64decode(b64)` at line 112 where `b64` is
`result.data[0].b64_json`: a missing payload (`None`) raises `TypeError`,
a malformed one raises `binascii.Error`; both are `none` here. -/
def decodePayload : Option (List Char) → Option (List Nat)
  | none => none
  | some s => b64decodeChecked s

/-- Result of processing one subject: the events it produced, the filesystem
afterwards, and (model bookkeeping) the bytes written on success, `none` on
any caught failure. -/
structure SubjResult where
  trace : List Ev
  fs : FS
  written : Option (List Nat)
deriving DecidableEq

/-- One iteration of the loop body, lines 76-115 (without the `finally`
sleep): strip the row's name, build the prompt and output path, print the
progress line, call the provider, extract `result.data[0].b64_json`
(an empty `data` list raises `IndexError` before the file is touched),
open the output file for truncating write, decode and write.  Any exception
inside the `try` is caught and logged with the subject's name; note that a
decode failure happens after `open(out_path, "wb")` has already truncated
the file, leaving it empty. -/
def processSubject (cfg : Cfg) (env : Env) (fs : FS) (rowName : String) :
    SubjResult :=
  let person_name := pyStrip rowName
  let prompt := make_prompt person_name
  let out_path := outPathFor cfg person_name
  let pEv := Ev.progress person_name (outFileName cfg.fmt person_name)
  let rr := callProvider cfg env prompt
  let reqEvs := rr.1.map Ev.req
  match rr.2 with
  | none => ⟨pEv :: reqEvs ++ [Ev.errorLog person_name], fs, none⟩
  | some resp =>
    match resp.data.head? with
    | none => ⟨pEv :: reqEvs ++ [Ev.errorLog person_name], fs, none⟩
    | some item =>
      if env.openOk out_path then
        match decodePayload item.b64_json with
        | none =>
            ⟨pEv :: reqEvs ++ [Ev.fileOpen out_path, Ev.errorLog person_name],
              fsSet fs out_path [], none⟩
        | some bytes =>
            ⟨pEv :: reqEvs ++ [Ev.fileOpen out_path, Ev.fileWrite out_path bytes],
              fsSet (fsSet fs out_path []) out_path bytes, some bytes⟩
      else ⟨pEv :: reqEvs ++ [Ev.errorLog person_name], fs, none⟩

/-- The whole loop (lines 76-117): subjects strictly in order, each followed
by the unconditional `finally: time.sleep(args.sleep)` before the next. -/
def runBatch (cfg : Cfg) (env : Env) (fs : FS) (rows : List Row) :
    List Ev × FS :=
  match rows with
  | [] => ([], fs)
  | r :: rest =>
      let s := processSubject cfg env fs r.name
      let k := runBatch cfg env s.fs rest
      (s.trace ++ Ev.sleep cfg.sleepSecs :: k.1, k.2)

/-- The path written by a file-write event, if it is one. -/
def writePath : Ev → Option String
  | .fileWrite p _ => some p
  | _ => none

/-! ## Concrete fixtures (used by witnesses and counterexamples) -/

/-- A run with default CLI values and no `--style`. -/
def cfgNoStyle : Cfg := ⟨"out", 1024, 1/2, "png", "high", none⟩

/-- A run where `--style` names an empty (zero-byte) file: the path is
supplied and its bytes are loaded, but `if style_bytes:` is falsy. -/
def cfgEmptyStyle : Cfg := ⟨"out", 1024, 1/2, "png", "high", some []⟩

/-- A provider that always succeeds with payload `"AQID"` (base64 of the
bytes 1, 2, 3). -/
def envGoodPayload : Env :=
  ⟨fun _ => .ok ⟨[⟨some "AQID".data⟩]⟩, fun _ => true⟩

/-- A provider that rejects the `quality` keyword (`TypeError`) and accepts
the reduced call. -/
def envQualityRejected : Env :=
  ⟨fun r => match r with
    | .generate _ _ (some _) _ => .typeErr
    | _ => .ok ⟨[⟨some "AQID".data⟩]⟩, fun _ => true⟩

/-- A provider whose every call raises a non-`TypeError` exception. -/
def envFail : Env := ⟨fun _ => .fail, fun _ => true⟩

/-- A provider returning a payload (`"x"`) on which `base64.b64decode`
raises `binascii.Error` (1 is not a multiple of 4). -/
def envBadPayload : Env := ⟨fun _ => .ok ⟨[⟨some "x".data⟩]⟩, fun _ => true⟩

/-- A provider answering per subject: the payload decoding to byte `1` on
the prompt for "Jane Doe", the one decoding to byte `2` otherwise. -/
def envDup : Env :=
  ⟨fun r => match r with
    | .generate p _ _ _ =>
        if p == make_prompt "Jane Doe" then .ok ⟨[⟨some "AQ==".data⟩]⟩
        else .ok ⟨[⟨some "Ag==".data⟩]⟩
    | .edit .. => .fail, fun _ => true⟩

/-- Two rows whose names coincide after sanitization. -/
def rowsDup : List Row := [⟨"Jane Doe"⟩, ⟨"Jane_Doe"⟩]

/-! ## Base64 losslessness -/

theorem sextetsToBytes_bytesToSextets (bs : List Nat) (h : ∀ x ∈ bs, x < 256) :
    sextetsToBytes (bytesToSextets bs) = bs := by
  induction bs using bytesToSextets.induct with
  | case1 => rfl
  | case2 a =>
      have ha : a < 256 := h a (by simp)
      simp only [bytesToSextets, sextetsToBytes, List.cons.injEq, and_true]
      omega
  | case3 a b =>
      have ha : a < 256 := h a (by simp)
      have hb : b < 256 := h b (by simp)
      simp only [bytesToSextets, sextetsToBytes, List.cons.injEq, and_true]
      exact ⟨by omega, by omega⟩
  | case4 a b c rest ih =>
      have ha : a < 256 := h a (by simp)
      have hb : b < 256 := h b (by simp)
      have hc : c < 256 := h c (by simp)
      have hrest : ∀ x ∈ rest, x < 256 := fun x hx => h x (by simp [hx])
      simp only [bytesToSextets, sextetsToBytes, List.cons.injEq]
      exact ⟨by omega, by omega, by omega, ih hrest⟩

theorem bytesToSextets_lt (bs : List Nat) (h : ∀ x ∈ bs, x < 256) :
    ∀ s ∈ bytesToSextets bs, s < 64 := by
  induction bs using bytesToSextets.induct with
  | case1 => simp [bytesToSextets]
  | case2 a =>
      have ha : a < 256 := h a (by simp)
      simp only [bytesToSextets, List.mem_cons, List.not_mem_nil, or_false]
      rintro s (rfl | rfl) <;> omega
  | case3 a b =>
      have ha : a < 256 := h a (by simp)
      have hb : b < 256 := h b (by simp)
      simp only [bytesToSextets, List.mem_cons, List.not_mem_nil, or_false]
      rintro s (rfl | rfl | rfl) <;> omega
  | case4 a b c rest ih =>
      have ha : a < 256 := h a (by simp)
      have hb : b < 256 := h b (by simp)
      have hc : c < 256 := h c (by simp)
      have hrest : ∀ x ∈ rest, x < 256 := fun x hx => h x (by simp [hx])
      simp only [bytesToSextets, List.mem_cons]
      rintro s (rfl | rfl | rfl | rfl | hs)
      · omega
      · omega
      · omega
      · omega
      · exact ih hrest s hs

theorem b64_table_facts : ∀ n : Fin 64, charToSextet (sextetToChar n.val) = n.val ∧
    b64Alphabet.contains (sextetToChar n.val) = true ∧
    (sextetToChar n.val == '=') = false := by decide

theorem b64encode_length_mod (bs : List Nat) :
    ((bytesToSextets bs).length + (3 - bs.length % 3) % 3) % 4 = 0 := by
  induction bs using bytesToSextets.induct with
  | case1 => rfl
  | case2 a => simp [bytesToSextets]
  | case3 a b => simp [bytesToSextets]
  | case4 a b c rest ih =>
      simp only [bytesToSextets, List.length_cons] at ih ⊢
      have hmod : (rest.length + 1 + 1 + 1) % 3 = rest.length % 3 := by omega
      rw [hmod]
      omega

/-- Losslessness of the text-safe encoding: decoding the base64 encoding of
any byte sequence recovers exactly those bytes. -/
theorem b64decodeChecked_b64encode (bs : List Nat) (h : ∀ x ∈ bs, x < 256) :
    b64decodeChecked (b64encode bs) = some bs := by
  have hlt := bytesToSextets_lt bs h
  have hkeep : ∀ c ∈ (bytesToSextets bs).map sextetToChar,
      (b64Alphabet.contains c || c == '=') = true := by
    intro c hc
    rcases List.mem_map.mp hc with ⟨s, hs, rfl⟩
    have h1 : b64Alphabet.contains (sextetToChar s) = true :=
      (b64_table_facts ⟨s, hlt s hs⟩).2.1
    rw [h1, Bool.true_or]
  have hscrub : b64Scrub (b64encode bs) = b64encode bs := by
    unfold b64Scrub b64encode
    rw [List.filter_append]
    rw [List.filter_eq_self.mpr hkeep]
    congr 1
    apply List.filter_eq_self.mpr
    intro c hc
    have : c = '=' := List.eq_of_mem_replicate hc
    simp [this]
  have hvalid : b64Valid (b64encode bs) = true := by
    unfold b64Valid
    rw [hscrub]
    unfold b64encode
    simp only [List.length_append, List.length_map, List.length_replicate]
    exact Nat.beq_eq_true_eq _ _ |>.mpr (b64encode_length_mod bs)
  have hdropPad : (b64encode bs).filter (fun c => !(c == '=')) =
      (bytesToSextets bs).map sextetToChar := by
    unfold b64encode
    rw [List.filter_append]
    have h1 : ((bytesToSextets bs).map sextetToChar).filter (fun c => !(c == '=')) =
        (bytesToSextets bs).map sextetToChar := by
      apply List.filter_eq_self.mpr
      intro c hc
      rcases List.mem_map.mp hc with ⟨s, hs, rfl⟩
      have := (b64_table_facts ⟨s, hlt s hs⟩).2.2
      simp [this]
    have h2 : (List.replicate ((3 - bs.length % 3) % 3) '=').filter
        (fun c => !(c == '=')) = [] := by
      apply List.filter_eq_nil_iff.mpr
      intro c hc
      have : c = '=' := List.eq_of_mem_replicate hc
      simp [this]
    rw [h1, h2, List.append_nil]
  have hmapinv : ∀ l : List Nat, (∀ s ∈ l, s < 64) →
      (l.map sextetToChar).map charToSextet = l := by
    intro l
    induction l with
    | nil => intro _; rfl
    | cons x xs ih =>
        intro hl
        simp only [List.map_cons, List.cons.injEq]
        exact ⟨(b64_table_facts ⟨x, hl x (by simp)⟩).1,
          ih (fun s hs => hl s (by simp [hs]))⟩
  have hraw : b64decodeRaw (b64encode bs) = bs := by
    unfold b64decodeRaw
    rw [hscrub, hdropPad, hmapinv _ hlt]
    exact sextetsToBytes_bytesToSextets bs h
  unfold b64decodeChecked
  rw [hvalid, hraw]
  rfl

/-! ## Helper lemmas -/

theorem fsGet_fsSet (fs : FS) (p : String) (v : List Nat) :
    fsGet (fsSet fs p v) p = some v := by
  simp [fsGet, fsSet]

/-- Every branch of the loop body starts with the progress line. -/
theorem processSubject_trace_head (cfg : Cfg) (env : Env) (fs : FS)
    (rowName : String) :
    ∃ tail, (processSubject cfg env fs rowName).trace =
      Ev.progress (pyStrip rowName) (outFileName cfg.fmt (pyStrip rowName)) :: tail := by
  cases hrr : (callProvider cfg env (make_prompt (pyStrip rowName))).2 with
  | none => exact ⟨_, by simp only [processSubject, hrr]; rfl⟩
  | some resp =>
    cases hhead : resp.data.head? with
    | none => exact ⟨_, by simp only [processSubject, hrr, hhead]; rfl⟩
    | some item =>
      cases hopen : env.openOk (outPathFor cfg (pyStrip rowName)) with
      | false =>
          exact ⟨_, by simp only [processSubject, hrr, hhead, hopen, Bool.false_eq_true,
            if_false]; rfl⟩
      | true =>
        cases hdec : decodePayload item.b64_json with
        | none =>
            exact ⟨_, by simp only [processSubject, hrr, hhead, hopen, if_true, hdec]; rfl⟩
        | some bytes =>
            exact ⟨_, by simp only [processSubject, hrr, hhead, hopen, if_true, hdec]; rfl⟩

/-- A caught per-subject failure logs the subject's name, and leaves the
output path either untouched (failure before the file was opened) or holding
an empty file (decode failure after the truncating open). -/
theorem processSubject_failure (cfg : Cfg) (env : Env) (fs : FS) (rowName : String)
    (h : (processSubject cfg env fs rowName).written = none) :
    Ev.errorLog (pyStrip rowName) ∈ (processSubject cfg env fs rowName).trace ∧
    (fsGet (processSubject cfg env fs rowName).fs (outPathFor cfg (pyStrip rowName)) =
        fsGet fs (outPathFor cfg (pyStrip rowName)) ∨
      fsGet (processSubject cfg env fs rowName).fs (outPathFor cfg (pyStrip rowName)) =
        some []) := by
  cases hrr : (callProvider cfg env (make_prompt (pyStrip rowName))).2 with
  | none => exact ⟨by simp [processSubject, hrr], Or.inl (by simp only [processSubject, hrr])⟩
  | some resp =>
    cases hhead : resp.data.head? with
    | none =>
        exact ⟨by simp [processSubject, hrr, hhead],
          Or.inl (by simp only [processSubject, hrr, hhead])⟩
    | some item =>
      cases hopen : env.openOk (outPathFor cfg (pyStrip rowName)) with
      | false =>
          refine ⟨by simp [processSubject, hrr, hhead, hopen], Or.inl ?_⟩
          simp only [processSubject, hrr, hhead, hopen, Bool.false_eq_true, if_false]
      | true =>
        cases hdec : decodePayload item.b64_json with
        | none =>
            refine ⟨by simp [processSubject, hrr, hhead, hopen, hdec], Or.inr ?_⟩
            simp only [processSubject, hrr, hhead, hopen, if_true, hdec]
            exact fsGet_fsSet fs _ []
        | some bytes =>
            exfalso
            simp [processSubject, hrr, hhead, hopen, hdec] at h

/-- A successful subject writes its decoded bytes over whatever was at the
output path. -/
theorem processSubject_success (cfg : Cfg) (env : Env) (fs : FS) (rowName : String)
    (bs : List Nat) (h : (processSubject cfg env fs rowName).written = some bs) :
    (processSubject cfg env fs rowName).fs =
      fsSet (fsSet fs (outPathFor cfg (pyStrip rowName)) [])
        (outPathFor cfg (pyStrip rowName)) bs ∧
    Ev.fileWrite (outPathFor cfg (pyStrip rowName)) bs ∈
      (processSubject cfg env fs rowName).trace := by
  cases hrr : (callProvider cfg env (make_prompt (pyStrip rowName))).2 with
  | none => exfalso; simp [processSubject, hrr] at h
  | some resp =>
    cases hhead : resp.data.head? with
    | none => exfalso; simp [processSubject, hrr, hhead] at h
    | some item =>
      cases hopen : env.openOk (outPathFor cfg (pyStrip rowName)) with
      | false => exfalso; simp [processSubject, hrr, hhead, hopen] at h
      | true =>
        cases hdec : decodePayload item.b64_json with
        | none => exfalso; simp [processSubject, hrr, hhead, hopen, hdec] at h
        | some bytes =>
            have hbs : bytes = bs := by
              simpa [processSubject, hrr, hhead, hopen, hdec] using h
            subst hbs
            exact ⟨by simp only [processSubject, hrr, hhead, hopen, if_true, hdec],
              by simp [processSubject, hrr, hhead, hopen, hdec]⟩

/-- Every request event of the loop body comes from its provider call. -/
theorem processSubject_req_mem (cfg : Cfg) (env : Env) (fs : FS) (rowName : String)
    (r : Request)
    (h : Ev.req r ∈ (processSubject cfg env fs rowName).trace) :
    r ∈ (callProvider cfg env (make_prompt (pyStrip rowName))).1 := by
  cases hrr : (callProvider cfg env (make_prompt (pyStrip rowName))).2 with
  | none =>
      simp [processSubject, hrr] at h
      exact h
  | some resp =>
    cases hhead : resp.data.head? with
    | none =>
        simp [processSubject, hrr, hhead] at h
        exact h
    | some item =>
      cases hopen : env.openOk (outPathFor cfg (pyStrip rowName)) with
      | false =>
          simp [processSubject, hrr, hhead, hopen] at h
          exact h
      | true =>
        cases hdec : decodePayload item.b64_json with
        | none =>
            simp [processSubject, hrr, hhead, hopen, hdec] at h
            exact h
        | some bytes =>
            simp [processSubject, hrr, hhead, hopen, hdec] at h
            exact h

/-- In the edit branch (non-empty style bytes), the only request issued is
the single edit request with the reference bytes. -/
theorem callProvider_reqs_edit (cfg : Cfg) (env : Env) (prompt : String)
    (b : Nat) (bs0 : List Nat) (hstyle : cfg.styleBytes = some (b :: bs0))
    (r : Request) (h : r ∈ (callProvider cfg env prompt).1) :
    r = Request.edit (b :: bs0) prompt (sizeStr cfg) (pyLower cfg.fmt) := by
  unfold callProvider at h
  rw [hstyle] at h
  cases hp : env.provider (Request.edit (b :: bs0) prompt (sizeStr cfg) (pyLower cfg.fmt)) with
  | ok resp => simp [hp] at h; exact h
  | typeErr => simp [hp] at h; exact h
  | fail => simp [hp] at h; exact h

/-- With no (truthy) style bytes the provider call goes through
`generateCall`. -/
theorem callProvider_eq_generateCall (cfg : Cfg) (env : Env) (prompt : String)
    (hstyle : cfg.styleBytes = none ∨ cfg.styleBytes = some []) :
    callProvider cfg env prompt = generateCall cfg env prompt := by
  unfold callProvider
  rcases hstyle with h1 | h1 <;> rw [h1]

/-- In the generate branch, every issued request is either the full request
with the configured quality, or the single quality-free fallback reissued
after the provider answered `TypeError` to the full one. -/
theorem callProvider_reqs_gen (cfg : Cfg) (env : Env) (prompt : String)
    (hstyle : cfg.styleBytes = none ∨ cfg.styleBytes = some [])
    (r : Request) (h : r ∈ (callProvider cfg env prompt).1) :
    r = Request.generate prompt (sizeStr cfg) (some cfg.quality) (pyLower cfg.fmt) ∨
    (r = Request.generate prompt (sizeStr cfg) none (pyLower cfg.fmt) ∧
      env.provider (Request.generate prompt (sizeStr cfg) (some cfg.quality)
        (pyLower cfg.fmt)) = ProviderAnswer.typeErr) := by
  rw [callProvider_eq_generateCall cfg env prompt hstyle] at h
  simp only [generateCall] at h
  cases hp : env.provider (Request.generate prompt (sizeStr cfg) (some cfg.quality)
      (pyLower cfg.fmt)) with
  | ok resp => simp [hp] at h; exact Or.inl h
  | typeErr =>
      cases hq : env.provider (Request.generate prompt (sizeStr cfg) none
          (pyLower cfg.fmt)) with
      | ok resp =>
          simp [hp, hq] at h
          rcases h with h | h
          · exact Or.inl h
          · exact Or.inr ⟨h, rfl⟩
      | typeErr =>
          simp [hp, hq] at h
          rcases h with h | h
          · exact Or.inl h
          · exact Or.inr ⟨h, rfl⟩
      | fail =>
          simp [hp, hq] at h
          rcases h with h | h
          · exact Or.inl h
          · exact Or.inr ⟨h, rfl⟩
  | fail => simp [hp] at h; exact Or.inl h

/-- Every subject row contributes its progress line to the batch trace:
no earlier failure can suppress a later subject. -/
theorem runBatch_progress_mem (cfg : Cfg) (env : Env) (rows : List Row) :
    ∀ fs : FS, ∀ r ∈ rows,
      Ev.progress (pyStrip r.name) (outFileName cfg.fmt (pyStrip r.name)) ∈
        (runBatch cfg env fs rows).1 := by
  induction rows with
  | nil => intro fs r hr; simp at hr
  | cons a rest ih =>
      intro fs r hr
      rcases List.mem_cons.mp hr with rfl | hr
      · obtain ⟨tail, ht⟩ := processSubject_trace_head cfg env fs r.name
        simp only [runBatch]
        exact List.mem_append.mpr (Or.inl (ht ▸ List.mem_cons_self _ _))
      · have hmem := ih (processSubject cfg env fs a.name).fs r hr
        simp only [runBatch]
        exact List.mem_append.mpr (Or.inr (List.mem_cons.mpr (Or.inr hmem)))

/-- Every request event of a batch run originates in some row's provider
call. -/
theorem runBatch_req_mem (cfg : Cfg) (env : Env) (rows : List Row) :
    ∀ fs : FS, ∀ r : Request, Ev.req r ∈ (runBatch cfg env fs rows).1 →
      ∃ row ∈ rows, r ∈ (callProvider cfg env (make_prompt (pyStrip row.name))).1 := by
  induction rows with
  | nil => intro fs r h; simp [runBatch] at h
  | cons a rest ih =>
      intro fs r h
      simp only [runBatch] at h
      rcases List.mem_append.mp h with h | h
      · exact ⟨a, by simp, processSubject_req_mem cfg env fs a.name r h⟩
      · rcases List.mem_cons.mp h with h | h
        · exact absurd h (by simp)
        · obtain ⟨row, hrow, hr⟩ := ih _ r h
          exact ⟨row, by simp [hrow], hr⟩

/-! ## Claims -/

/-- C4: the processed Batch is exactly the input rows whose `name` is
non-empty after stripping whitespace, in their original order, and its size
equals the number of input rows with a non-blank name. -/
theorem batch_filter_nonblank (input : List Row) :
    (∀ r ∈ loadRows input, pyStrip r.name ≠ "") ∧
    List.Sublist (loadRows input) input ∧
    (∀ r ∈ input, pyStrip r.name ≠ "" → r ∈ loadRows input) ∧
    (loadRows input).length = input.countP (fun r => !(pyStrip r.name == "")) := by
  refine ⟨?_, List.filter_sublist _, ?_, (List.countP_eq_length_filter _ _).symm⟩
  · intro r hr
    have h1 := List.of_mem_filter hr
    simpa using h1
  · intro r hr hne
    exact List.mem_filter.mpr ⟨hr, by simpa using hne⟩

/-- C7: `make_prompt` is a pure function of the subject name; for every
non-empty name its output embeds the exact name (as a substring) between the
fixed template prefix and suffix, and any two outputs share that prefix and
suffix, differing only at the embedded name. -/
theorem prompt_template_stability (n : String) (h : n ≠ "") :
    (∃ pre post : String, make_prompt n = pre ++ n ++ post) ∧
    (∀ m : String, ∃ pre post : String,
        make_prompt n = pre ++ n ++ post ∧ make_prompt m = pre ++ m ++ post) :=
  ⟨⟨promptPrefix, promptSuffix, rfl⟩,
   fun _ => ⟨promptPrefix, promptSuffix, rfl, rfl⟩⟩

/-- Witness for C7 at the concrete name "Jane Doe". -/
theorem prompt_template_stability_witness :
    ∃ pre post : String, make_prompt "Jane Doe" = pre ++ "Jane Doe" ++ post :=
  (prompt_template_stability "Jane Doe" (by decide)).1

/-- C6: for every successfully processed subject the output path is the
output directory joined with the subject name with every space replaced by
an underscore, a dot and the (lower-cased) configured format; "Jane Doe"
with format png yields the file name Jane_Doe.png; and the successful write
lands the decoded bytes at that path regardless of what the filesystem held
there before (overwrite). -/
theorem output_path_naming (cfg : Cfg) (env : Env) (fs : FS) (rowName : String)
    (bs : List Nat) (h : (processSubject cfg env fs rowName).written = some bs) :
    outPathFor cfg (pyStrip rowName) =
      cfg.out ++ "/" ++ pyReplaceSpace (pyStrip rowName) ++ "." ++ pyLower cfg.fmt ∧
    outFileName "png" "Jane Doe" = "Jane_Doe.png" ∧
    fsGet (processSubject cfg env fs rowName).fs (outPathFor cfg (pyStrip rowName)) =
      some bs := by
  refine ⟨?_, by decide, ?_⟩
  · simp [outPathFor, outFileName, String.append_assoc]
  · rw [(processSubject_success cfg env fs rowName bs h).1]
    exact fsGet_fsSet _ _ _

/-- Witness for C6: a successful one-subject run writes the decoded bytes
1, 2, 3 to out/Jane_Doe.png. -/
theorem output_path_naming_witness :
    outPathFor cfgNoStyle (pyStrip "Jane Doe") =
      cfgNoStyle.out ++ "/" ++ pyReplaceSpace (pyStrip "Jane Doe") ++ "." ++
        pyLower cfgNoStyle.fmt ∧
    outFileName "png" "Jane Doe" = "Jane_Doe.png" ∧
    fsGet (processSubject cfgNoStyle envGoodPayload [] "Jane Doe").fs
        (outPathFor cfgNoStyle (pyStrip "Jane Doe")) = some [1, 2, 3] :=
  output_path_naming cfgNoStyle envGoodPayload [] "Jane Doe" [1, 2, 3] (by decide)

/-- C2: failure isolation — every row of the batch contributes its progress
line to the run trace, whatever the provider or the filesystem do for the
rows before it (so a failure for subject i never prevents subjects i+1..n
from being attempted), and every caught per-subject failure logs an error
line carrying that subject's name. -/
theorem failure_isolation (cfg : Cfg) (env : Env) (fs : FS) (rows : List Row) :
    (∀ r ∈ rows,
        Ev.progress (pyStrip r.name) (outFileName cfg.fmt (pyStrip r.name)) ∈
          (runBatch cfg env fs rows).1) ∧
    (∀ (fs0 : FS) (rowName : String),
        (processSubject cfg env fs0 rowName).written = none →
        Ev.errorLog (pyStrip rowName) ∈ (processSubject cfg env fs0 rowName).trace) :=
  ⟨runBatch_progress_mem cfg env rows fs,
   fun fs0 rowName h => (processSubject_failure cfg env fs0 rowName h).1⟩

/-- C8: the run trace decomposes into one block per subject, in their order,
and the i-th block is exactly the i-th subject's own loop-body events (run
in the filesystem state the first i subjects produced) followed immediately
by the pacing sleep for the configured delay: the sleep happens after each
subject's events and before the next subject's first event (or loop exit),
identically on the success and failure paths. -/
theorem pacing_sleep_every_subject (cfg : Cfg) (env : Env) (fs : FS) (rows : List Row) :
    ∃ ts : List (List Ev),
      (runBatch cfg env fs rows).1 = ts.flatten ∧
      ts.length = rows.length ∧
      (∀ i < rows.length, ts.getD i [] =
        (processSubject cfg env (runBatch cfg env fs (rows.take i)).2
            (rows.getD i ⟨""⟩).name).trace ++ [Ev.sleep cfg.sleepSecs]) ∧
      ∀ b ∈ ts, b.getLast? = some (Ev.sleep cfg.sleepSecs) := by
  induction rows generalizing fs with
  | nil => exact ⟨[], rfl, rfl, by intro i hi; exact absurd hi (by simp), by simp⟩
  | cons a rest ih =>
      obtain ⟨ts, h1, h2, h3, h4⟩ := ih (processSubject cfg env fs a.name).fs
      refine ⟨((processSubject cfg env fs a.name).trace ++ [Ev.sleep cfg.sleepSecs]) :: ts,
        ?_, by simp [h2], ?_, ?_⟩
      · simp only [runBatch, List.flatten_cons, List.append_assoc, List.cons_append,
          List.nil_append]
        rw [h1]
      · intro i hi
        cases i with
        | zero => simp [runBatch]
        | succ j =>
            have hj : j < rest.length := by simpa using hi
            have := h3 j hj
            simp only [List.getD_cons_succ, List.take_succ_cons, List.length_cons] at this ⊢
            rw [this]
            simp only [runBatch]
      · intro b hb
        rcases List.mem_cons.mp hb with rfl | hb
        · exact List.getLast?_concat _
        · exact h4 b hb

set_option maxRecDepth 4000 in
/-- C1 counterexample: with a style path supplied whose loaded bytes are
empty, the run issues a generate-shaped request carrying the quality
parameter (not an edit request); and with no style configured, the fallback
after a quality rejection issues a request that carries no quality
parameter. -/
theorem requests_mode_as_claimed_cex :
    (callProvider cfgEmptyStyle envGoodPayload "p").1 =
      [Request.generate "p" (sizeStr cfgEmptyStyle) (some "high") "png"] ∧
    isEditShape (Request.generate "p" (sizeStr cfgEmptyStyle) (some "high") "png") =
      false ∧
    carriesQuality (Request.generate "p" (sizeStr cfgEmptyStyle) (some "high") "png") =
      true ∧
    (callProvider cfgNoStyle envQualityRejected "p").1 =
      [Request.generate "p" (sizeStr cfgNoStyle) (some "high") "png",
        Request.generate "p" (sizeStr cfgNoStyle) none "png"] ∧
    carriesQuality (Request.generate "p" (sizeStr cfgNoStyle) none "png") = false := by
  exact ⟨by decide, rfl, rfl, by decide, rfl⟩

/-- C1 (amended): when the loaded style bytes are non-empty, every request
issued anywhere in the run is the edit request carrying the reference bytes,
and no request carries a quality parameter; when no style path is supplied
or its loaded bytes are empty, every issued request is generate-shaped and
carries the configured quality, except the single fallback reissue after the
provider rejected the quality keyword, which omits it. -/
theorem requests_mode_amended (cfg : Cfg) (env : Env) (fs : FS) (rows : List Row)
    (r : Request) (h : Ev.req r ∈ (runBatch cfg env fs rows).1) :
    (∀ b bs0, cfg.styleBytes = some (b :: bs0) →
        isEditShape r = true ∧ refBytesOf r = some (b :: bs0) ∧
          carriesQuality r = false) ∧
    ((cfg.styleBytes = none ∨ cfg.styleBytes = some []) →
        isEditShape r = false ∧
        ∃ prompt,
          r = Request.generate prompt (sizeStr cfg) (some cfg.quality)
              (pyLower cfg.fmt) ∨
          (r = Request.generate prompt (sizeStr cfg) none (pyLower cfg.fmt) ∧
            env.provider (Request.generate prompt (sizeStr cfg) (some cfg.quality)
              (pyLower cfg.fmt)) = ProviderAnswer.typeErr)) := by
  obtain ⟨row, hrow, hr⟩ := runBatch_req_mem cfg env rows fs r h
  refine ⟨?_, ?_⟩
  · intro b bs0 hstyle
    have he := callProvider_reqs_edit cfg env _ b bs0 hstyle r hr
    subst he
    exact ⟨rfl, rfl, rfl⟩
  · intro hstyle
    rcases callProvider_reqs_gen cfg env _ hstyle r hr with h1 | ⟨h1, h2⟩
    · subst h1
      exact ⟨rfl, make_prompt (pyStrip row.name), Or.inl rfl⟩
    · subst h1
      exact ⟨rfl, make_prompt (pyStrip row.name), Or.inr ⟨rfl, h2⟩⟩

set_option maxRecDepth 4000 in
/-- Witness for the amended C1: in a concrete no-style run the issued
request is generate-shaped with the configured quality. -/
theorem requests_mode_amended_witness :
    isEditShape (Request.generate (make_prompt (pyStrip "Jane")) (sizeStr cfgNoStyle)
        (some cfgNoStyle.quality) (pyLower cfgNoStyle.fmt)) = false ∧
    ∃ prompt,
      Request.generate (make_prompt (pyStrip "Jane")) (sizeStr cfgNoStyle)
          (some cfgNoStyle.quality) (pyLower cfgNoStyle.fmt) =
        Request.generate prompt (sizeStr cfgNoStyle) (some cfgNoStyle.quality)
          (pyLower cfgNoStyle.fmt) ∨
      (Request.generate (make_prompt (pyStrip "Jane")) (sizeStr cfgNoStyle)
          (some cfgNoStyle.quality) (pyLower cfgNoStyle.fmt) =
        Request.generate prompt (sizeStr cfgNoStyle) none (pyLower cfgNoStyle.fmt) ∧
        envGoodPayload.provider (Request.generate prompt (sizeStr cfgNoStyle)
          (some cfgNoStyle.quality) (pyLower cfgNoStyle.fmt)) =
          ProviderAnswer.typeErr) :=
  (requests_mode_amended cfgNoStyle envGoodPayload [] [⟨"Jane"⟩]
      (Request.generate (make_prompt (pyStrip "Jane")) (sizeStr cfgNoStyle)
        (some cfgNoStyle.quality) (pyLower cfgNoStyle.fmt))
      (by decide)).2 (Or.inl rfl)

set_option maxRecDepth 4000 in
/-- C3 counterexample: a malformed payload ("x") makes decoding fail only
after the output file has been opened for truncating write, so the
pre-existing file at out/Jane_Doe.png (bytes 1, 2, 3) is replaced by an
empty file although the subject failed. -/
theorem no_partial_file_cex :
    (processSubject cfgNoStyle envBadPayload [("out/Jane_Doe.png", [1, 2, 3])]
        "Jane Doe").written = none ∧
    fsGet [("out/Jane_Doe.png", [1, 2, 3])] "out/Jane_Doe.png" = some [1, 2, 3] ∧
    fsGet (processSubject cfgNoStyle envBadPayload [("out/Jane_Doe.png", [1, 2, 3])]
        "Jane Doe").fs "out/Jane_Doe.png" = some [] := by
  exact ⟨by decide, by decide, by decide⟩

/-- C3 (amended): on a caught per-subject failure the filesystem at the
subject's output path is either unchanged (failure before the file was
opened: provider failure, missing response data, unopenable path) or holds
an empty file (payload decode failure after the truncating open); no
partially decoded payload is ever written. -/
theorem no_partial_file_amended (cfg : Cfg) (env : Env) (fs : FS) (rowName : String)
    (h : (processSubject cfg env fs rowName).written = none) :
    fsGet (processSubject cfg env fs rowName).fs (outPathFor cfg (pyStrip rowName)) =
        fsGet fs (outPathFor cfg (pyStrip rowName)) ∨
    fsGet (processSubject cfg env fs rowName).fs (outPathFor cfg (pyStrip rowName)) =
        some [] :=
  (processSubject_failure cfg env fs rowName h).2

/-- Witness for the amended C3: a provider failure leaves the filesystem at
the output path untouched. -/
theorem no_partial_file_amended_witness :
    fsGet (processSubject cfgNoStyle envFail [] "Jane Doe").fs
        (outPathFor cfgNoStyle (pyStrip "Jane Doe")) =
      fsGet ([] : FS) (outPathFor cfgNoStyle (pyStrip "Jane Doe")) ∨
    fsGet (processSubject cfgNoStyle envFail [] "Jane Doe").fs
        (outPathFor cfgNoStyle (pyStrip "Jane Doe")) = some [] :=
  no_partial_file_amended cfgNoStyle envFail [] "Jane Doe" (by decide)

/-- C5: in generate mode, a TypeError on the quality-bearing call triggers
exactly one fallback request with the same prompt, size and output format
but no quality parameter; any other answer to the first call triggers no
fallback; and when the fallback itself fails, the subject is handled as a
recoverable per-subject failure (logged with the subject name, nothing
recorded as written). -/
theorem quality_fallback (cfg : Cfg) (env : Env) (fs : FS) (rowName : String)
    (hstyle : cfg.styleBytes = none ∨ cfg.styleBytes = some []) :
    (env.provider (Request.generate (make_prompt (pyStrip rowName)) (sizeStr cfg)
          (some cfg.quality) (pyLower cfg.fmt)) = ProviderAnswer.typeErr →
        (callProvider cfg env (make_prompt (pyStrip rowName))).1 =
          [Request.generate (make_prompt (pyStrip rowName)) (sizeStr cfg)
              (some cfg.quality) (pyLower cfg.fmt),
            Request.generate (make_prompt (pyStrip rowName)) (sizeStr cfg)
              none (pyLower cfg.fmt)]) ∧
    (env.provider (Request.generate (make_prompt (pyStrip rowName)) (sizeStr cfg)
          (some cfg.quality) (pyLower cfg.fmt)) ≠ ProviderAnswer.typeErr →
        (callProvider cfg env (make_prompt (pyStrip rowName))).1 =
          [Request.generate (make_prompt (pyStrip rowName)) (sizeStr cfg)
              (some cfg.quality) (pyLower cfg.fmt)]) ∧
    (env.provider (Request.generate (make_prompt (pyStrip rowName)) (sizeStr cfg)
          (some cfg.quality) (pyLower cfg.fmt)) = ProviderAnswer.typeErr →
      (∀ resp, env.provider (Request.generate (make_prompt (pyStrip rowName))
          (sizeStr cfg) none (pyLower cfg.fmt)) ≠ ProviderAnswer.ok resp) →
      (processSubject cfg env fs rowName).written = none ∧
      Ev.errorLog (pyStrip rowName) ∈ (processSubject cfg env fs rowName).trace) := by
  have hcg := callProvider_eq_generateCall cfg env (make_prompt (pyStrip rowName)) hstyle
  refine ⟨?_, ?_, ?_⟩
  · intro hp
    rw [hcg]
    cases hq : env.provider (Request.generate (make_prompt (pyStrip rowName))
        (sizeStr cfg) none (pyLower cfg.fmt)) <;>
      simp [generateCall, hp, hq]
  · intro hp
    cases hq : env.provider (Request.generate (make_prompt (pyStrip rowName))
        (sizeStr cfg) (some cfg.quality) (pyLower cfg.fmt)) with
    | ok resp => rw [hcg]; simp [generateCall, hq]
    | typeErr => exact absurd hq hp
    | fail => rw [hcg]; simp [generateCall, hq]
  · intro hp hq
    have hnone : (callProvider cfg env (make_prompt (pyStrip rowName))).2 = none := by
      rw [hcg]
      cases hq2 : env.provider (Request.generate (make_prompt (pyStrip rowName))
          (sizeStr cfg) none (pyLower cfg.fmt)) with
      | ok resp => exact absurd hq2 (hq resp)
      | typeErr => simp [generateCall, hp, hq2]
      | fail => simp [generateCall, hp, hq2]
    have hw : (processSubject cfg env fs rowName).written = none := by
      simp only [processSubject, hnone]
    exact ⟨hw, (processSubject_failure cfg env fs rowName hw).1⟩

set_option maxRecDepth 4000 in
/-- Witness for C5: a provider that rejects the quality keyword makes the
run issue exactly the full request followed by the quality-free fallback. -/
theorem quality_fallback_witness :
    envQualityRejected.provider (Request.generate (make_prompt (pyStrip "Jane"))
        (sizeStr cfgNoStyle) (some cfgNoStyle.quality) (pyLower cfgNoStyle.fmt)) =
      ProviderAnswer.typeErr ∧
    (callProvider cfgNoStyle envQualityRejected (make_prompt (pyStrip "Jane"))).1 =
      [Request.generate (make_prompt (pyStrip "Jane")) (sizeStr cfgNoStyle)
          (some cfgNoStyle.quality) (pyLower cfgNoStyle.fmt),
        Request.generate (make_prompt (pyStrip "Jane")) (sizeStr cfgNoStyle)
          none (pyLower cfgNoStyle.fmt)] :=
  ⟨by decide, (quality_fallback cfgNoStyle envQualityRejected [] "Jane"
      (Or.inl rfl)).1 (by decide)⟩

/-- C9: the bytes recorded as written for a successful subject are exactly
the base64 decoding of the payload the provider returned, they land at the
subject's output path, and decoding is lossless and exact: decoding the
encoding of any byte sequence returns precisely that sequence. -/
theorem written_bytes_roundtrip (cfg : Cfg) (env : Env) (fs : FS) (rowName : String)
    (resp : Resp) (item : Item) (payload : List Char) (bytes : List Nat)
    (hresp : (callProvider cfg env (make_prompt (pyStrip rowName))).2 = some resp)
    (hhead : resp.data.head? = some item)
    (hpayload : item.b64_json = some payload)
    (hdec : b64decodeChecked payload = some bytes)
    (hopen : env.openOk (outPathFor cfg (pyStrip rowName)) = true) :
    (processSubject cfg env fs rowName).written = some bytes ∧
    fsGet (processSubject cfg env fs rowName).fs (outPathFor cfg (pyStrip rowName)) =
      some bytes ∧
    (∀ img : List Nat, (∀ x ∈ img, x < 256) →
      b64decodeChecked (b64encode img) = some img) := by
  have hw : (processSubject cfg env fs rowName).written = some bytes := by
    simp only [processSubject, hresp, hhead, hopen, if_true, decodePayload, hpayload,
      hdec]
  refine ⟨hw, ?_, fun img hi => b64decodeChecked_b64encode img hi⟩
  rw [(processSubject_success cfg env fs rowName bytes hw).1]
  exact fsGet_fsSet _ _ _

set_option maxRecDepth 4000 in
/-- Witness for C9: with payload "AQID" the subject writes exactly the bytes
1, 2, 3. -/
theorem written_bytes_roundtrip_witness :
    (processSubject cfgNoStyle envGoodPayload [] "Jane Doe").written =
      some [1, 2, 3] ∧
    fsGet (processSubject cfgNoStyle envGoodPayload [] "Jane Doe").fs
        (outPathFor cfgNoStyle (pyStrip "Jane Doe")) = some [1, 2, 3] ∧
    (∀ img : List Nat, (∀ x ∈ img, x < 256) →
      b64decodeChecked (b64encode img) = some img) :=
  written_bytes_roundtrip cfgNoStyle envGoodPayload [] "Jane Doe"
    ⟨[⟨some "AQID".data⟩]⟩ ⟨some "AQID".data⟩ "AQID".data [1, 2, 3]
    (by decide) (by decide) (by decide) (by decide) (by decide)

set_option maxRecDepth 4000 in
/-- C10: two subjects whose stripped names coincide after replacing spaces
with underscores share one output path; concretely, the batch
["Jane Doe", "Jane_Doe"] writes both subjects to out/Jane_Doe.png, the
second write silently overwriting the first, so two successful writes leave
only one distinct output file. -/
theorem sanitized_name_collision (cfg : Cfg) (n1 n2 : String)
    (h : pyReplaceSpace (pyStrip n1) = pyReplaceSpace (pyStrip n2)) :
    outPathFor cfg (pyStrip n1) = outPathFor cfg (pyStrip n2) ∧
    fsGet (runBatch cfgNoStyle envDup [] rowsDup).2 "out/Jane_Doe.png" = some [2] ∧
    ((runBatch cfgNoStyle envDup [] rowsDup).1.filterMap writePath).length = 2 ∧
    ((runBatch cfgNoStyle envDup [] rowsDup).1.filterMap writePath).dedup.length =
      1 := by
  refine ⟨?_, by decide, by decide, by decide⟩
  simp [outPathFor, outFileName, h]

set_option maxRecDepth 4000 in
/-- Witness for C10 at the names "Jane Doe" and "Jane_Doe". -/
theorem sanitized_name_collision_witness :
    outPathFor cfgNoStyle (pyStrip "Jane Doe") =
      outPathFor cfgNoStyle (pyStrip "Jane_Doe") ∧
    fsGet (runBatch cfgNoStyle envDup [] rowsDup).2 "out/Jane_Doe.png" = some [2] ∧
    ((runBatch cfgNoStyle envDup [] rowsDup).1.filterMap writePath).length = 2 ∧
    ((runBatch cfgNoStyle envDup [] rowsDup).1.filterMap writePath).dedup.length =
      1 :=
  sanitized_name_collision cfgNoStyle "Jane Doe" "Jane_Doe" (by decide)

end BatchPortraits
